import Mathlib

/-!
Shallow embedding of the event-driven core of the todo system:
the idempotent consumer handlers (audit, recurring, notification),
the recurrence date computation, the event publisher / job client,
and the reminder routes.  Machine state (ledgers, tables) is passed
explicitly; Python exceptions are modelled with `Except`.
-/

/-- Python exceptions that can escape the code we embed. -/
inductive PyError where
  | badUUID : PyError
  deriving DecidableEq, Repr

/-- The tri-state consumer result returned to the broker. -/
inductive Status where
  | SUCCESS : Status
  | RETRY : Status
  | DROP : Status
  deriving DecidableEq, Repr

/-- Python truthiness of an optional string: `None` and `""` are falsy. -/
def truthyStr : Option String → Bool
  | none => false
  | some s => !s.isEmpty

/-- Value of one hexadecimal digit, as accepted by `uuid.UUID`. -/
def hexDigitVal (c : Char) : Option Nat :=
  if c.isDigit then some (c.toNat - 48)
  else if 'a' ≤ c && c ≤ 'f' then some (c.toNat - 87)
  else if 'A' ≤ c && c ≤ 'F' then some (c.toNat - 55)
  else none

/-- Accumulate hex digits left to right; any non-hex character poisons the result. -/
def hexAccum (acc : Option Nat) (c : Char) : Option Nat :=
  match acc, hexDigitVal c with
  | some a, some v => some (16 * a + v)
  | _, _ => none

/-- Model of Python `uuid.UUID(s)`: strip hyphens, require exactly 32 hex
digits, and read them as a 128-bit number.  Returns `none` where the Python
constructor raises `ValueError`. -/
def uuidParse (s : String) : Option Nat :=
  let cs := s.data.filter (fun c => c ≠ '-')
  if cs.length = 32 then cs.foldl hexAccum (some 0) else none

/-- A timezone-normalised (UTC) calendar datetime at second precision. -/
structure DateTime where
  year : Nat
  month : Nat
  day : Nat
  hour : Nat
  minute : Nat
  second : Nat
  deriving DecidableEq, Repr

/-- Gregorian leap-year rule. -/
def isLeapYear (y : Nat) : Bool :=
  y % 4 = 0 && (y % 100 ≠ 0 || y % 400 = 0)

/-- Number of days in a month of a given year. -/
def daysInMonth (y m : Nat) : Nat :=
  if m = 2 then (if isLeapYear y then 29 else 28)
  else if m = 4 || m = 6 || m = 9 || m = 11 then 30
  else 31

/-- The calendar day after `d`. -/
def nextDay (d : DateTime) : DateTime :=
  if d.day < daysInMonth d.year d.month then { d with day := d.day + 1 }
  else if d.month < 12 then { d with month := d.month + 1, day := 1 }
  else { d with year := d.year + 1, month := 1, day := 1 }

/-- `d` advanced by `n` calendar days (semantics of `relativedelta(days=n)`
on a valid datetime). -/
def addDays (d : DateTime) : Nat → DateTime
  | 0 => d
  | n + 1 => addDays (nextDay d) n

/-- `d` advanced by one calendar month with end-of-month clamping: the
semantics of `relativedelta(months=1)` (Jan 31 lands on Feb 28/29). -/
def addOneMonth (d : DateTime) : DateTime :=
  let y := if d.month = 12 then d.year + 1 else d.year
  let m := if d.month = 12 then 1 else d.month + 1
  { d with year := y, month := m, day := min d.day (daysInMonth y m) }

/-- Value of one decimal digit. -/
def decDigit (c : Char) : Option Nat :=
  if c.isDigit then some (c.toNat - 48) else none

/-- Read a decimal number from a digit list; any non-digit poisons it. -/
def natOfDigits (cs : List Char) : Option Nat :=
  cs.foldl (fun acc c =>
    match acc, decDigit c with
    | some a, some v => some (10 * a + v)
    | _, _ => none) (some 0)

/-- Model of `datetime.fromisoformat` on the ISO-8601 subset this system
emits and consumes: `YYYY-MM-DDTHH:MM:SS` with an optional `+00:00` offset.
Returns `none` where Python raises `ValueError`. -/
def parseIso (s : String) : Option DateTime :=
  let cs := s.data
  let core := cs.take 19
  let tz := cs.drop 19
  if tz = [] || tz = ['+', '0', '0', ':', '0', '0'] then
    match core with
    | [y1, y2, y3, y4, c1, m1, m2, c2, d1, d2, t, h1, h2, c3, n1, n2, c4, s1, s2] =>
      if c1 = '-' && c2 = '-' && t = 'T' && c3 = ':' && c4 = ':' then
        match natOfDigits [y1, y2, y3, y4], natOfDigits [m1, m2], natOfDigits [d1, d2],
              natOfDigits [h1, h2], natOfDigits [n1, n2], natOfDigits [s1, s2] with
        | some y, some mo, some da, some h, some mi, some se =>
          if 1 ≤ mo && mo ≤ 12 && 1 ≤ da && da ≤ daysInMonth y mo
              && h ≤ 23 && mi ≤ 59 && se ≤ 59 then
            some ⟨y, mo, da, h, mi, se⟩
          else none
        | _, _, _, _, _, _ => none
      else none
    | _ => none
  else none

/-- Replace every `Z` by `+00:00`, as the handlers do before parsing
(`timestamp_str.replace("Z", "+00:00")`). -/
def zReplaceChars : List Char → List Char
  | [] => []
  | 'Z' :: rest => '+' :: '0' :: '0' :: ':' :: '0' :: '0' :: zReplaceChars rest
  | c :: rest => c :: zReplaceChars rest

def zReplace (s : String) : String := String.mk (zReplaceChars s.data)

/-- Two-digit zero padding for ISO formatting. -/
def pad2 (n : Nat) : String := if n < 10 then "0" ++ toString n else toString n

/-- Model of `datetime.isoformat()` on a UTC-aware datetime. -/
def isoFormat (d : DateTime) : String :=
  toString d.year ++ "-" ++ pad2 d.month ++ "-" ++ pad2 d.day ++ "T"
    ++ pad2 d.hour ++ ":" ++ pad2 d.minute ++ ":" ++ pad2 d.second ++ "+00:00"

/-! ## Recurrence engine: `compute_next_due_date`
(src/services/recurring/app/handlers/recurrence_handler.py) -/

namespace Recurrence

/-- The rule dispatch of `compute_next_due_date` applied to an already
resolved base datetime: daily → +1 day, weekly → +7 days, monthly →
+1 month with clamping, anything else defaults to daily. -/
def computeFromBase (base : DateTime) (recurrence_rule : String) : DateTime :=
  if recurrence_rule = "daily" then addDays base 1
  else if recurrence_rule = "weekly" then addDays base 7
  else if recurrence_rule = "monthly" then addOneMonth base
  else addDays base 1

/-- `compute_next_due_date(current_due_at, recurrence_rule)`.  `now` stands
for `datetime.now(timezone.utc)`, used when the due date is absent or fails
to parse.  The source returns `next_date.isoformat()`; this model returns
the datetime, with `isoFormat` applied at the call site. -/
def compute_next_due_date (now : DateTime) (current_due_at : Option String)
    (recurrence_rule : String) : DateTime :=
  let base :=
    if truthyStr current_due_at then
      match parseIso (zReplace (current_due_at.getD "")) with
      | some d => d
      | none => now
    else now
  computeFromBase base recurrence_rule

end Recurrence

/-! ## Inbound envelopes and consumer state -/

/-- The `task_data` snapshot carried inside a task event payload.  Fields
are optional because the handlers read them with `dict.get`. -/
structure TaskData where
  title : Option String
  description : Option String
  priority : Option String
  tags : List String
  due_at : Option String
  is_recurring : Option Bool
  recurrence_rule : Option String
  deriving DecidableEq, Repr

/-- An inbound CloudEvents envelope for the `task-events` topic, flattened
to the fields the handlers read (`id` on the envelope, the rest under
`data`). -/
structure TaskEventEnvelope where
  id : Option String
  event_type : Option String
  task_id : Option String
  user_id : Option String
  timestamp : Option String
  task_data : TaskData
  deriving DecidableEq, Repr

/-! ## Audit Recorder (src/services/audit/app/handlers/audit_handler.py) -/

namespace Audit

/-- One immutable `audit_entry` row. -/
structure AuditEntry where
  event_type : String
  task_id : Nat
  user_id : String
  timestamp : DateTime
  deriving DecidableEq, Repr

/-- The audit service's store: its processed-event ledger (event ids) and
its append-only audit table. -/
structure State where
  ledger : List Nat
  entries : List AuditEntry
  deriving DecidableEq, Repr

def VALID_EVENT_TYPES : List String := ["created", "updated", "completed", "deleted"]

/-- `handle_task_event` of the audit service.  `now` stands for
`datetime.now(timezone.utc)` (timestamp fallback).  `Except.error`
models an uncaught Python exception escaping the handler. -/
def handle_task_event (now : DateTime) (event_data : TaskEventEnvelope)
    (st : State) : Except PyError (Status × State) :=
  if !truthyStr event_data.id then .ok (.DROP, st)
  else
    match uuidParse (event_data.id.getD "") with
    | none => .error .badUUID
    | some event_id =>
      if st.ledger.contains event_id then .ok (.SUCCESS, st)
      else
        if !truthyStr event_data.event_type || !truthyStr event_data.task_id
            || !truthyStr event_data.user_id then .ok (.DROP, st)
        else if !VALID_EVENT_TYPES.contains (event_data.event_type.getD "") then
          .ok (.DROP, st)
        else
          let timestamp :=
            if truthyStr event_data.timestamp then
              match parseIso (zReplace (event_data.timestamp.getD "")) with
              | some d => d
              | none => now
            else now
          match uuidParse (event_data.task_id.getD "") with
          | none => .error .badUUID
          | some tid =>
            let entry : AuditEntry :=
              { event_type := event_data.event_type.getD ""
                task_id := tid
                user_id := event_data.user_id.getD ""
                timestamp := timestamp }
            .ok (.SUCCESS,
              { ledger := event_id :: st.ledger, entries := entry :: st.entries })

end Audit

/-! ## Recurrence Engine handler
(src/services/recurring/app/handlers/recurrence_handler.py) -/

namespace Recurrence

/-- Outcome of the outbound task-creation call (Dapr service invocation):
an HTTP status, or a raised transport exception. -/
inductive CallOutcome where
  | status : Nat → CallOutcome
  | raised : CallOutcome
  deriving DecidableEq, Repr

/-- The recurring service's store: just its processed-event ledger. -/
structure State where
  ledger : List Nat
  deriving DecidableEq, Repr

/-- The JSON body POSTed to the backend to create the successor task. -/
structure NewTaskPayload where
  title : String
  description : Option String
  priority : Option String
  tags : List String
  due_at : String
  is_recurring : Bool
  recurrence_rule : String
  deriving DecidableEq, Repr

/-- The successor-task payload built on a completed recurring match. -/
def successorPayload (now : DateTime) (task_data : TaskData)
    (recurrence_rule : String) : NewTaskPayload :=
  { title := task_data.title.getD ""
    description := task_data.description
    priority := task_data.priority
    tags := task_data.tags
    due_at := isoFormat (compute_next_due_date now task_data.due_at recurrence_rule)
    is_recurring := true
    recurrence_rule := recurrence_rule }

/-- `handle_task_event` of the recurring service.  `call` is the outcome of
the outbound creation request; the returned list holds the creation
requests actually attempted (zero or one). -/
def handle_task_event (now : DateTime) (event_data : TaskEventEnvelope)
    (st : State) (call : CallOutcome) :
    Except PyError (Status × State × List NewTaskPayload) :=
  if !truthyStr event_data.id then .ok (.DROP, st, [])
  else
    match uuidParse (event_data.id.getD "") with
    | none => .error .badUUID
    | some event_id =>
      if st.ledger.contains event_id then .ok (.SUCCESS, st, [])
      else
        let is_recurring := event_data.task_data.is_recurring.getD false
        if event_data.event_type ≠ some "completed" || !is_recurring then
          .ok (.SUCCESS, { ledger := event_id :: st.ledger }, [])
        else if !truthyStr event_data.task_data.recurrence_rule then
          .ok (.SUCCESS, { ledger := event_id :: st.ledger }, [])
        else
          let rule := event_data.task_data.recurrence_rule.getD ""
          let payload := successorPayload now event_data.task_data rule
          match call with
          | .status code =>
            if code = 200 || code = 201 then
              .ok (.SUCCESS, { ledger := event_id :: st.ledger }, [payload])
            else .ok (.RETRY, st, [payload])
          | .raised => .ok (.RETRY, st, [payload])

end Recurrence

/-! ## Notification Dispatcher
(src/services/notification/app/handlers/reminder_handler.py) -/

namespace Notification

/-- The `data` payload of an inbound reminder event, as read with
`dict.get`. -/
structure ReminderData where
  reminder_id : Option String
  task_id : Option String
  title : Option String
  user_id : Option String
  due_at : Option String
  remind_at : Option String
  deriving DecidableEq, Repr

/-- An inbound CloudEvents envelope for the `reminders` topic. -/
structure ReminderEnvelope where
  id : Option String
  data : ReminderData
  deriving DecidableEq, Repr

/-- The notification service's store: its ledger and the structured
notification log lines it has emitted. -/
structure State where
  ledger : List Nat
  logs : List ReminderData
  deriving DecidableEq, Repr

/-- `handle_reminder_event` of the notification service. -/
def handle_reminder_event (event_data : ReminderEnvelope) (st : State) :
    Except PyError (Status × State) :=
  if !truthyStr event_data.id then .ok (.DROP, st)
  else
    match uuidParse (event_data.id.getD "") with
    | none => .error .badUUID
    | some event_id =>
      if st.ledger.contains event_id then .ok (.SUCCESS, st)
      else
        .ok (.SUCCESS,
          { ledger := event_id :: st.ledger, logs := event_data.data :: st.logs })

end Notification

/-! ## Event Publisher and Job Scheduler Client
(src/backend/app/services/event_publisher.py) -/

namespace Publisher

/-- Outcome of an HTTP round trip to the Dapr sidecar: a response status
code, or a raised exception anywhere inside the method's `try` block. -/
inductive BrokerOutcome where
  | status : Nat → BrokerOutcome
  | raised : BrokerOutcome
  deriving DecidableEq, Repr

/-- Body of a publish method's `try` block: `True` on HTTP 200, `False`
otherwise, a raised exception escaping as `Except.error`. -/
def publishAttempt (o : BrokerOutcome) : Except Unit Bool :=
  match o with
  | .status code => if code = 200 then .ok true else .ok false
  | .raised => .error ()

/-- `EventPublisher.publish_task_event`: the `try` body guarded by the
`except Exception` handler, which logs and returns `False`. -/
def publish_task_event (o : BrokerOutcome) : Bool :=
  match publishAttempt o with
  | .ok b => b
  | .error _ => false

/-- `EventPublisher.publish_task_update_event`, same control flow. -/
def publish_task_update_event (o : BrokerOutcome) : Bool :=
  match publishAttempt o with
  | .ok b => b
  | .error _ => false

/-- `EventPublisher.publish_reminder_event`, same control flow. -/
def publish_reminder_event (o : BrokerOutcome) : Bool :=
  match publishAttempt o with
  | .ok b => b
  | .error _ => false

/-- Body of `schedule_reminder_job`'s `try` block: `True` on 200 or 201. -/
def scheduleAttempt (o : BrokerOutcome) : Except Unit Bool :=
  match o with
  | .status code => if code = 200 || code = 201 then .ok true else .ok false
  | .raised => .error ()

/-- `EventPublisher.schedule_reminder_job`. -/
def schedule_reminder_job (o : BrokerOutcome) : Bool :=
  match scheduleAttempt o with
  | .ok b => b
  | .error _ => false

/-- Body of `cancel_reminder_job`'s `try` block: `True` on 204 (deleted)
and on 404 (job absent, acceptable), `False` on any other status. -/
def cancelAttempt (o : BrokerOutcome) : Except Unit Bool :=
  match o with
  | .status code =>
    if code = 204 then .ok true
    else if code = 404 then .ok true
    else .ok false
  | .raised => .error ()

/-- `EventPublisher.cancel_reminder_job`. -/
def cancel_reminder_job (o : BrokerOutcome) : Bool :=
  match cancelAttempt o with
  | .ok b => b
  | .error _ => false

end Publisher

/-! ## Backend reminder routes
(src/backend/app/routers/reminders.py, src/backend/app/routers/internal.py) -/

namespace Backend

/-- A `tasks` row, restricted to the fields these routes read.  Times are
UTC epoch seconds; ids are 128-bit UUID values. -/
structure TaskRow where
  id : Nat
  user_id : String
  title : String
  due_at : Option Int
  deriving DecidableEq, Repr

/-- A `reminders` row. -/
structure ReminderRow where
  id : Nat
  task_id : Nat
  user_id : String
  remind_at : Int
  deriving DecidableEq, Repr

/-- The backend's relational state seen by the reminder routes. -/
structure State where
  tasks : List TaskRow
  reminders : List ReminderRow
  deriving DecidableEq, Repr

/-- A job-scheduling request handed to `schedule_reminder_job`. -/
structure JobRequest where
  job_name : String
  schedule : Int
  reminder_id : Nat
  task_id : Nat
  user_id : String
  deriving DecidableEq, Repr

/-- Result of the `create_reminder` route: a 201 with the new row, or an
HTTPException status code. -/
inductive CreateReminderResult where
  | created : ReminderRow → CreateReminderResult
  | error : Nat → CreateReminderResult
  deriving DecidableEq, Repr

/-- `POST /api/{user_id}/tasks/{task_id}/reminders` (`create_reminder`).
`now` is `datetime.now(timezone.utc)` and `remind_at` the request's time,
both normalised to UTC epoch seconds; `newId` is the fresh reminder UUID;
`sched` is the boolean returned by `schedule_reminder_job` (a scheduling
failure is only logged).  Returns the route result, the new state, and
the scheduling requests attempted. -/
def create_reminder (st : State) (user_id : String) (task_id : Nat)
    (remind_at : Int) (current_user : String) (now : Int) (newId : Nat)
    (sched : Bool) : CreateReminderResult × State × List JobRequest :=
  if current_user ≠ user_id then (.error 403, st, [])
  else if remind_at ≤ now then (.error 400, st, [])
  else
    match st.tasks.find? (fun t => t.id = task_id && t.user_id = current_user) with
    | none => (.error 404, st, [])
    | some _ =>
      let reminder : ReminderRow :=
        { id := newId, task_id := task_id, user_id := current_user
          remind_at := remind_at }
      let st' : State := { st with reminders := reminder :: st.reminders }
      let job : JobRequest :=
        { job_name := "reminder-" ++ toString newId, schedule := remind_at
          reminder_id := newId, task_id := task_id, user_id := current_user }
      let _ := sched
      (.created reminder, st', [job])

/-- Request body of the reminder-trigger callback. -/
structure TriggerRequest where
  reminder_id : Nat
  task_id : Nat
  user_id : String
  deriving DecidableEq, Repr

/-- Result of the trigger route: `200 {"status":"ok"}` or an error code. -/
inductive TriggerResult where
  | ok : TriggerResult
  | error : Nat → TriggerResult
  deriving DecidableEq, Repr

/-- The reminder event payload handed to `publish_reminder_event`. -/
structure ReminderEventPayload where
  reminder_id : Nat
  task_id : Nat
  title : String
  user_id : String
  due_at : Option Int
  remind_at : Int
  deriving DecidableEq, Repr

/-- `POST /internal/jobs/reminder-trigger` (`trigger_reminder`).  The
reminder is fetched by primary key (`session.get`), NOT filtered by user;
the task lookup is user-scoped.  `pub` is the broker outcome of the
publish call; the returned list holds the payloads handed to the
publisher. -/
def trigger_reminder (st : State) (req : TriggerRequest)
    (pub : Publisher.BrokerOutcome) : TriggerResult × List ReminderEventPayload :=
  match st.reminders.find? (fun r => r.id = req.reminder_id) with
  | none => (.error 404, [])
  | some reminder =>
    match st.tasks.find? (fun t => t.id = req.task_id && t.user_id = req.user_id) with
    | none => (.error 404, [])
    | some task =>
      let payload : ReminderEventPayload :=
        { reminder_id := req.reminder_id, task_id := task.id
          title := task.title, user_id := req.user_id
          due_at := task.due_at, remind_at := reminder.remind_at }
      if Publisher.publish_reminder_event pub then (.ok, [payload])
      else (.error 500, [payload])

end Backend

/-! ## Auxiliary definitions used by the verification statements -/

/-- `true` iff the handler invocation terminated by returning a result
(no Python exception escaped). -/
def noRaise {α : Type} : Except PyError α → Bool
  | .ok _ => true
  | .error _ => false

/-- An id field that cannot make `uuid.UUID` raise when the handler reaches
the parse: absent, falsy, or a well-formed UUID string. -/
def wellFormedId : Option String → Prop
  | none => True
  | some s => s.isEmpty = true ∨ (uuidParse s).isSome = true

/-- Backend state for the trigger-route analysis: task 10 belongs to
`alice`, while reminder 1 (pointing at task 10) belongs to `bob`. -/
def crossUserState : Backend.State :=
  { tasks := [{ id := 10, user_id := "alice", title := "standup", due_at := none }]
    reminders := [{ id := 1, task_id := 10, user_id := "bob", remind_at := 50 }] }

/-- A trigger request quoting `alice` as the user but `bob`'s reminder id. -/
def crossUserReq : Backend.TriggerRequest :=
  { reminder_id := 1, task_id := 10, user_id := "alice" }

/-- An envelope whose id is present but not a well-formed UUID string. -/
def badIdEnvelope : TaskEventEnvelope :=
  { id := some "not-a-uuid", event_type := some "created"
    task_id := some "abcdefab-1234-5678-9abc-def012345678"
    user_id := some "user-1", timestamp := none
    task_data := ⟨none, none, none, [], none, none, none⟩ }

/-! ## Helper lemmas -/

theorem uuidParse_empty : uuidParse "" = none := rfl

theorem truthy_of_uuidParse {s : String} {n : Nat} (h : uuidParse s = some n) :
    truthyStr (some s) = true := by
  by_cases hs : s = ""
  · subst hs
    rw [uuidParse_empty] at h
    cases h
  · have he : s.isEmpty = false := by
      rcases Bool.eq_false_or_eq_true s.isEmpty with h' | h'
      · exact absurd ((String.isEmpty_iff s).mp h') hs
      · exact h'
    simp [truthyStr, he]

theorem wf_truthy_parse {o : Option String} (hwf : wellFormedId o)
    (ht : truthyStr o = true) : ∃ n, uuidParse (o.getD "") = some n := by
  cases o with
  | none => simp [truthyStr] at ht
  | some s =>
    simp only [truthyStr, Bool.not_eq_true'] at ht
    rcases hwf with h | h
    · rw [ht] at h
      cases h
    · exact Option.isSome_iff_exists.mp h

theorem isEmpty_false_of_ne {s : String} (hs : s ≠ "") : s.isEmpty = false := by
  rcases Bool.eq_false_or_eq_true s.isEmpty with h' | h'
  · exact absurd ((String.isEmpty_iff s).mp h') hs
  · exact h'

theorem parseIso_z_empty : parseIso (zReplace "") = none := rfl

theorem truthy_of_zparse {s : String} {d : DateTime}
    (h : parseIso (zReplace s) = some d) : truthyStr (some s) = true := by
  by_cases hs : s = ""
  · subst hs
    rw [parseIso_z_empty] at h
    cases h
  · simp [truthyStr, isEmpty_false_of_ne hs]

theorem compute_eq_of_parse (now : DateTime) {s : String} {d : DateTime}
    (h : parseIso (zReplace s) = some d) (rule : String) :
    Recurrence.compute_next_due_date now (some s) rule
      = Recurrence.computeFromBase d rule := by
  unfold Recurrence.compute_next_due_date
  simp only [Option.getD_some, truthy_of_zparse h, if_true, h]

theorem parseIso_jan31 :
    parseIso (zReplace "2026-01-31T00:00:00Z") = some ⟨2026, 1, 31, 0, 0, 0⟩ := rfl

/-! ## Claim theorems -/

/-- Claim C1: for every consumer (audit, recurrence, notification), an
inbound envelope whose id is already in that consumer's processed-event
ledger is answered with SUCCESS and causes no side effect: the service
state (ledger, audit entries, notification logs) is returned unchanged and
the recurrence engine attempts no task creation. -/
theorem c1_duplicate_redelivery_no_side_effect (now : DateTime) (s : String)
    (eid : Nat) (hparse : uuidParse s = some eid) :
    (∀ (env : TaskEventEnvelope) (st : Audit.State), env.id = some s →
       eid ∈ st.ledger →
       Audit.handle_task_event now env st = .ok (.SUCCESS, st))
  ∧ (∀ (env : TaskEventEnvelope) (st : Recurrence.State)
       (call : Recurrence.CallOutcome), env.id = some s →
       eid ∈ st.ledger →
       Recurrence.handle_task_event now env st call = .ok (.SUCCESS, st, []))
  ∧ (∀ (env : Notification.ReminderEnvelope) (st : Notification.State),
       env.id = some s → eid ∈ st.ledger →
       Notification.handle_reminder_event env st = .ok (.SUCCESS, st)) := by
  have ht := truthy_of_uuidParse hparse
  refine ⟨?_, ?_, ?_⟩
  · intro env st hid hmem
    simp [Audit.handle_task_event, hid, ht, hparse, hmem]
  · intro env st call hid hmem
    simp [Recurrence.handle_task_event, hid, ht, hparse, hmem]
  · intro env st hid hmem
    simp [Notification.handle_reminder_event, hid, ht, hparse, hmem]

/-- Witness for C1: a concrete duplicate redelivery to the audit service
returns SUCCESS with the state untouched. -/
theorem c1_witness :
    Audit.handle_task_event ⟨2026, 1, 1, 0, 0, 0⟩
      { id := some "00000000-0000-0000-0000-000000000001"
        event_type := some "created"
        task_id := some "00000000-0000-0000-0000-00000000000a"
        user_id := some "u", timestamp := none
        task_data := ⟨none, none, none, [], none, none, none⟩ }
      { ledger := [1], entries := [] }
      = .ok (.SUCCESS, { ledger := [1], entries := [] }) :=
  (c1_duplicate_redelivery_no_side_effect ⟨2026, 1, 1, 0, 0, 0⟩
    "00000000-0000-0000-0000-000000000001" 1 (by rfl)).1 _ _ rfl (by decide)

/-- Claim C2: an inbound envelope with no id field makes every consumer
return DROP with the service state unchanged and no outbound call. -/
theorem c2_missing_id_drops_and_writes_nothing (now : DateTime) :
    (∀ (et tid uid ts : Option String) (td : TaskData) (st : Audit.State),
       Audit.handle_task_event now ⟨none, et, tid, uid, ts, td⟩ st = .ok (.DROP, st))
  ∧ (∀ (et tid uid ts : Option String) (td : TaskData) (st : Recurrence.State)
       (call : Recurrence.CallOutcome),
       Recurrence.handle_task_event now ⟨none, et, tid, uid, ts, td⟩ st call
         = .ok (.DROP, st, []))
  ∧ (∀ (d : Notification.ReminderData) (st : Notification.State),
       Notification.handle_reminder_event ⟨none, d⟩ st = .ok (.DROP, st)) :=
  ⟨fun _ _ _ _ _ _ => rfl, fun _ _ _ _ _ _ _ => rfl, fun _ _ => rfl⟩

/-- Claim C3: `compute_next_due_date` on rule `monthly` moves to the next
calendar month clamping the day to that month's length; on the example,
2026-01-31 yields 2026-02-28 (2026 is not a leap year); `daily` adds one
day and `weekly` seven days to the parsed base. -/
theorem c3_compute_next_due_date_rules (now : DateTime) :
    Recurrence.compute_next_due_date now (some "2026-01-31T00:00:00Z") "monthly"
      = ⟨2026, 2, 28, 0, 0, 0⟩
  ∧ (∀ (s : String) (d : DateTime), parseIso (zReplace s) = some d →
      Recurrence.compute_next_due_date now (some s) "daily" = addDays d 1
    ∧ Recurrence.compute_next_due_date now (some s) "weekly" = addDays d 7
    ∧ Recurrence.compute_next_due_date now (some s) "monthly"
        = { d with
            year := if d.month = 12 then d.year + 1 else d.year
            month := if d.month = 12 then 1 else d.month + 1
            day := min d.day (daysInMonth
                     (if d.month = 12 then d.year + 1 else d.year)
                     (if d.month = 12 then 1 else d.month + 1)) }) := by
  constructor
  · rw [compute_eq_of_parse now parseIso_jan31]
    decide
  · intro s d h
    refine ⟨?_, ?_, ?_⟩
    · rw [compute_eq_of_parse now h]
      simp [Recurrence.computeFromBase]
    · rw [compute_eq_of_parse now h]
      simp [Recurrence.computeFromBase]
    · rw [compute_eq_of_parse now h]
      simp [Recurrence.computeFromBase, addOneMonth]

/-- Witness for C3: the weekly rule on a concrete parsed base. -/
theorem c3_witness :
    Recurrence.compute_next_due_date ⟨2026, 1, 1, 0, 0, 0⟩
      (some "2026-03-15T10:00:00Z") "weekly" = addDays ⟨2026, 3, 15, 10, 0, 0⟩ 7 :=
  ((c3_compute_next_due_date_rules ⟨2026, 1, 1, 0, 0, 0⟩).2
    "2026-03-15T10:00:00Z" ⟨2026, 3, 15, 10, 0, 0⟩ (by rfl)).2.1

/-- Claim C4: each publish operation is total over every broker outcome
(the `except Exception` wrapper absorbs any raise, so the caller never sees
an exception) and returns `true` exactly when the broker answers 200. -/
theorem c4_publish_total_true_iff_200 (o : Publisher.BrokerOutcome) :
    (Publisher.publish_task_event o = true ↔ o = .status 200)
  ∧ (Publisher.publish_task_update_event o = true ↔ o = .status 200)
  ∧ (Publisher.publish_reminder_event o = true ↔ o = .status 200) := by
  cases o with
  | status code =>
    by_cases h : code = 200 <;>
      simp [Publisher.publish_task_event, Publisher.publish_task_update_event,
        Publisher.publish_reminder_event, Publisher.publishAttempt, h]
  | raised =>
    simp [Publisher.publish_task_event, Publisher.publish_task_update_event,
      Publisher.publish_reminder_event, Publisher.publishAttempt]

/-- Claim C5: cancelling a job reports success on 204 (deleted) and on 404
(job absent — already fired or removed), and failure exactly on every other
status and on a raised exception. -/
theorem c5_cancel_missing_job_is_success :
    Publisher.cancel_reminder_job (.status 204) = true
  ∧ Publisher.cancel_reminder_job (.status 404) = true
  ∧ (∀ code, code ≠ 204 → code ≠ 404 →
       Publisher.cancel_reminder_job (.status code) = false)
  ∧ Publisher.cancel_reminder_job .raised = false := by
  refine ⟨rfl, rfl, ?_, rfl⟩
  intro code h204 h404
  simp [Publisher.cancel_reminder_job, Publisher.cancelAttempt, h204, h404]

/-- Witness for C5: a 500 from the scheduler is reported as failure. -/
theorem c5_witness : Publisher.cancel_reminder_job (.status 500) = false :=
  c5_cancel_missing_job_is_success.2.2.1 500 (by decide) (by decide)

/-- Claim C6: an authorized create-reminder request whose `remind_at` is
not strictly in the future is rejected with a 400 before any state change:
the reminder table is unchanged and no scheduling request is issued. -/
theorem c6_past_remind_at_rejected (st : Backend.State) (user_id : String)
    (task_id : Nat) (remind_at now : Int) (newId : Nat) (sched : Bool)
    (hpast : remind_at ≤ now) :
    Backend.create_reminder st user_id task_id remind_at user_id now newId sched
      = (.error 400, st, []) := by
  simp [Backend.create_reminder, hpast]

/-- Witness for C6: a concrete past `remind_at` is rejected. -/
theorem c6_witness :
    Backend.create_reminder ⟨[], []⟩ "u" 5 3 "u" 10 7 true
      = (.error 400, ⟨[], []⟩, []) :=
  c6_past_remind_at_rejected ⟨[], []⟩ "u" 5 3 10 7 true (by decide)

/-- Claim C7 as stated is false: the claim says the reminder lookup is
scoped to the given user id.  In `crossUserState` the user-scoped lookup
for `alice`'s reminder 1 finds nothing (the reminder belongs to `bob`),
so under the claim the callback should answer 404 and publish nothing;
the handler instead fetches the reminder by primary key alone, finds it,
and publishes a reminder event built from `bob`'s reminder. -/
theorem c7_counterexample :
    (crossUserState.reminders.find?
        (fun r => r.id = crossUserReq.reminder_id && r.user_id = crossUserReq.user_id)
      = none)
  ∧ Backend.trigger_reminder crossUserState crossUserReq (.status 200)
      = (.ok, [{ reminder_id := 1, task_id := 10, title := "standup",
                 user_id := "alice", due_at := none, remind_at := 50 }]) := by
  exact ⟨rfl, rfl⟩

/-- Claim C7 amended: the reminder is looked up by primary key alone (not
scoped to the user) while the task lookup is scoped to the given user id;
if either lookup fails the route returns 404 and hands nothing to the
publisher; when both succeed exactly one reminder event is handed to the
publisher, the route returning ok on publish success and a 500 server
error on publish failure. -/
theorem c7_trigger_lookup_semantics (st : Backend.State)
    (req : Backend.TriggerRequest) (pub : Publisher.BrokerOutcome) :
    (st.reminders.find? (fun r => r.id = req.reminder_id) = none →
       Backend.trigger_reminder st req pub = (.error 404, []))
  ∧ (∀ reminder,
       st.reminders.find? (fun r => r.id = req.reminder_id) = some reminder →
       st.tasks.find? (fun t => t.id = req.task_id && t.user_id = req.user_id)
         = none →
       Backend.trigger_reminder st req pub = (.error 404, []))
  ∧ (∀ reminder task,
       st.reminders.find? (fun r => r.id = req.reminder_id) = some reminder →
       st.tasks.find? (fun t => t.id = req.task_id && t.user_id = req.user_id)
         = some task →
       Backend.trigger_reminder st req pub =
         (if Publisher.publish_reminder_event pub then
            (.ok, [⟨req.reminder_id, task.id, task.title, req.user_id,
                    task.due_at, reminder.remind_at⟩])
          else
            (.error 500, [⟨req.reminder_id, task.id, task.title, req.user_id,
                    task.due_at, reminder.remind_at⟩]))) := by
  refine ⟨?_, ?_, ?_⟩
  · intro h
    simp [Backend.trigger_reminder, h]
  · intro reminder h1 h2
    simp [Backend.trigger_reminder, h1, h2]
  · intro reminder task h1 h2
    simp [Backend.trigger_reminder, h1, h2]

/-- Witness for the amended C7: an absent reminder yields 404 and no
published event. -/
theorem c7_witness :
    Backend.trigger_reminder ⟨[], []⟩ ⟨1, 2, "u"⟩ (.status 200)
      = (.error 404, []) :=
  (c7_trigger_lookup_semantics ⟨[], []⟩ ⟨1, 2, "u"⟩ (.status 200)).1 rfl

/-- Claim C8: on a completed recurring event not yet in the ledger, a
non-success status or a raised transport error from the task-creation
call makes the handler return RETRY with the ledger unchanged (the row
for this event id is not written), so redelivery retries the creation. -/
theorem c8_creation_failure_retry_no_ledger (now : DateTime)
    (env : TaskEventEnvelope) (st : Recurrence.State)
    (call : Recurrence.CallOutcome) (s : String) (eid : Nat)
    (hid : env.id = some s) (hparse : uuidParse s = some eid)
    (hfresh : eid ∉ st.ledger)
    (htype : env.event_type = some "completed")
    (hrec : env.task_data.is_recurring = some true)
    (hrule : truthyStr env.task_data.recurrence_rule = true)
    (hfail : ∀ code, call = .status code → code ≠ 200 ∧ code ≠ 201) :
    Recurrence.handle_task_event now env st call
      = .ok (.RETRY, st,
          [Recurrence.successorPayload now env.task_data
            (env.task_data.recurrence_rule.getD "")]) := by
  have ht := truthy_of_uuidParse hparse
  cases call with
  | status code =>
    obtain ⟨h200, h201⟩ := hfail code rfl
    simp [Recurrence.handle_task_event, hid, ht, hparse, hfresh, htype, hrec,
      hrule, h200, h201]
  | raised =>
    simp [Recurrence.handle_task_event, hid, ht, hparse, hfresh, htype, hrec,
      hrule]

/-- Witness for C8: a concrete completed weekly task whose creation call
answers 503 is RETRYed with an empty ledger left empty. -/
theorem c8_witness :
    Recurrence.handle_task_event ⟨2026, 1, 1, 0, 0, 0⟩
      ⟨some "00000000-0000-0000-0000-000000000002", some "completed", some "t",
       some "u", none,
       ⟨some "gym", none, none, [], some "2026-03-10T09:00:00Z", some true,
        some "weekly"⟩⟩
      ⟨[]⟩ (.status 503)
      = .ok (.RETRY, ⟨[]⟩,
          [Recurrence.successorPayload ⟨2026, 1, 1, 0, 0, 0⟩
            ⟨some "gym", none, none, [], some "2026-03-10T09:00:00Z", some true,
             some "weekly"⟩
            "weekly"]) :=
  c8_creation_failure_retry_no_ledger ⟨2026, 1, 1, 0, 0, 0⟩ _ _ _
    "00000000-0000-0000-0000-000000000002" 2 rfl (by rfl) (by decide) rfl rfl
    (by rfl)
    (fun code hc => by cases hc; exact ⟨by decide, by decide⟩)

/-- Claim C9 as stated is false: an envelope whose id is present but not a
well-formed UUID string makes the audit handler raise `ValueError` out of
`UUID(event_id)` instead of returning a tri-state result. -/
theorem c9_counterexample :
    Audit.handle_task_event ⟨2026, 1, 1, 0, 0, 0⟩ badIdEnvelope ⟨[], []⟩
      = .error .badUUID := rfl

/-- Claim C9 amended: whenever the envelope id (and, for the audit
handler, the payload task id) is absent, falsy, or a well-formed UUID
string, no handler raises: every invocation terminates returning one of
SUCCESS, RETRY, DROP.  A present, truthy, malformed id instead raises. -/
theorem c9_wellformed_ids_tristate (now : DateTime) :
    (∀ (env : TaskEventEnvelope) (st : Audit.State), wellFormedId env.id →
       wellFormedId env.task_id →
       noRaise (Audit.handle_task_event now env st) = true)
  ∧ (∀ (env : TaskEventEnvelope) (st : Recurrence.State)
       (call : Recurrence.CallOutcome), wellFormedId env.id →
       noRaise (Recurrence.handle_task_event now env st call) = true)
  ∧ (∀ (env : Notification.ReminderEnvelope) (st : Notification.State),
       wellFormedId env.id →
       noRaise (Notification.handle_reminder_event env st) = true) := by
  refine ⟨?_, ?_, ?_⟩
  · intro env st hid htid
    by_cases h1 : truthyStr env.id
    · obtain ⟨eid, heid⟩ := wf_truthy_parse hid h1
      by_cases h2 : eid ∈ st.ledger
      · simp [Audit.handle_task_event, noRaise, h1, heid, h2]
      · by_cases h3a : truthyStr env.event_type
        · by_cases h3b : truthyStr env.task_id
          · by_cases h3c : truthyStr env.user_id
            · obtain ⟨tid, htidp⟩ := wf_truthy_parse htid h3b
              by_cases h4 : env.event_type.getD "" ∈ Audit.VALID_EVENT_TYPES <;>
                simp [Audit.handle_task_event, noRaise, h1, heid, h2, h3a, h3b,
                  h3c, h4, htidp]
            · simp [Audit.handle_task_event, noRaise, h1, heid, h2, h3a, h3b, h3c]
          · simp [Audit.handle_task_event, noRaise, h1, heid, h2, h3a, h3b]
        · simp [Audit.handle_task_event, noRaise, h1, heid, h2, h3a]
    · simp [Audit.handle_task_event, noRaise, h1]
  · intro env st call hid
    by_cases h1 : truthyStr env.id
    · obtain ⟨eid, heid⟩ := wf_truthy_parse hid h1
      by_cases h2 : eid ∈ st.ledger
      · simp [Recurrence.handle_task_event, noRaise, h1, heid, h2]
      · simp only [Recurrence.handle_task_event, heid]
        simp only [h1, Bool.not_true, Bool.false_eq_true, if_false]
        split
        · rfl
        · split
          · rfl
          · split
            · rfl
            · cases call with
              | status code => split <;> first | rfl | (split <;> rfl)
              | raised => rfl
    · simp [Recurrence.handle_task_event, noRaise, h1]
  · intro env st hid
    by_cases h1 : truthyStr env.id
    · obtain ⟨eid, heid⟩ := wf_truthy_parse hid h1
      by_cases h2 : eid ∈ st.ledger <;>
        simp [Notification.handle_reminder_event, noRaise, h1, heid, h2]
    · simp [Notification.handle_reminder_event, noRaise, h1]

/-- Witness for the amended C9: a concrete envelope with no id at all is
handled without raising. -/
theorem c9_witness :
    noRaise (Audit.handle_task_event ⟨2026, 1, 1, 0, 0, 0⟩
      { id := none, event_type := none, task_id := none, user_id := none
        timestamp := none, task_data := ⟨none, none, none, [], none, none, none⟩ }
      ⟨[], []⟩) = true :=
  (c9_wellformed_ids_tristate ⟨2026, 1, 1, 0, 0, 0⟩).1 _ _ True.intro True.intro

/-- Claim C10: an authorized create-reminder request with a future
`remind_at` and an existing user-owned task succeeds with the persisted
row even when the scheduler call fails (`sched = false`): the row stays
in the new state, the scheduling request was attempted, and no error is
surfaced. -/
theorem c10_schedule_failure_still_created (st : Backend.State)
    (user_id : String) (task_id : Nat) (remind_at now : Int) (newId : Nat)
    (t : Backend.TaskRow)
    (hfind : st.tasks.find? (fun x => x.id = task_id && x.user_id = user_id)
      = some t)
    (hfut : now < remind_at) :
    Backend.create_reminder st user_id task_id remind_at user_id now newId false
      = (.created ⟨newId, task_id, user_id, remind_at⟩,
         { st with reminders := ⟨newId, task_id, user_id, remind_at⟩ :: st.reminders },
         [⟨"reminder-" ++ toString newId, remind_at, newId, task_id, user_id⟩]) := by
  simp [Backend.create_reminder, hfind, not_le.mpr hfut]

/-- Witness for C10: a concrete reminder is created although scheduling
failed. -/
theorem c10_witness :
    Backend.create_reminder ⟨[⟨10, "u", "title", none⟩], []⟩ "u" 10 100 "u" 0 7 false
      = (.created ⟨7, 10, "u", 100⟩,
         ⟨[⟨10, "u", "title", none⟩], [⟨7, 10, "u", 100⟩]⟩,
         [⟨"reminder-7", 100, 7, 10, "u"⟩]) :=
  c10_schedule_failure_still_created ⟨[⟨10, "u", "title", none⟩], []⟩ "u" 10 100 0 7
    ⟨10, "u", "title", none⟩ (by rfl) (by decide)

